import Mathlib

/-!
Verification of `src/keyboard.js` (Keyboard.js, keyboard event handling
interface for Danish keyboards).

The embedding mirrors the source file:
* the `KEY` code table (source lines 62-162);
* the constants `KEYMASK`, `KEYSHIFT`, `KEYCTRL`, `KEYALT` (lines 229-232);
* the `broken` table of unmappable chords (lines 235-382);
* the `safariTranslator` keyIdentifier table (lines 388-409);
* `isAccessKey` (lines 412-417);
* the key-down canceller `cancel` (lines 421-448);
* the key-up dispatcher `monitor` (lines 451-475);
* `handler.register` (lines 512-576).

Chords are indexed in the JS source by the array `[keyCode, ctrl, shift, alt]`
coerced to the string "keyCode,ctrl,shift,alt"; that coercion is injective, so
the registry is modelled as an association list keyed by the structural chord.
Callbacks and explicit contexts are opaque to the source (it only stores and
invokes them), so they are modelled as natural-number identifiers.  Side
effects (`lib.stopEvent`, `alert`, IE keyCode zeroing, the access-key div
manipulations) are modelled as an ordered list of `Action`s emitted by each
operation.
-/

namespace Keyboard

/-- A chord index: the JS array `[keyCode, ctrlKey, shiftKey, altKey]` used to
key the `keys` object (source lines 425, 427, 455, 457, 517). -/
structure Chord where
  baseCode : Nat
  ctrl : Bool
  shift : Bool
  alt : Bool
deriving DecidableEq, Repr

/-- A native keyboard event as read by the source: `keyCode`, the three
modifier flags, and the optional webkit `keyIdentifier` string. -/
structure KeyEvent where
  keyCode : Nat
  ctrlKey : Bool
  shiftKey : Bool
  altKey : Bool
  keyIdentifier : Option String
deriving DecidableEq, Repr

/-- A stored handler value: either a bare function, or the
`[context, function]` array form (source comment lines 34-39, dispatch switch
lines 463-472).  Functions and context objects are opaque identifiers. -/
inductive Binding where
  | fn (callback : Nat)
  | pair (contextObj : Nat) (callback : Nat)
deriving DecidableEq, Repr

/-- The receiver (`this`) a callback is invoked with: the event's target
(line 466) or the binding's explicit context object (line 470). -/
inductive Receiver where
  | eventTarget
  | contextObj (obj : Nat)
deriving DecidableEq, Repr

/-- An observable side effect of the source, in program order. -/
inductive Action where
  | stopEvent
  | zeroKeyCode
  | setStyleAltDiv (keyCode : Nat)
  | invoke (callback : Nat) (receiver : Receiver) (event : KeyEvent)
  | alertMsg (message : String)
  | appendAccessDiv (keyCode : Nat)
deriving DecidableEq, Repr

/-- The per-element `keys` object: chord index to stored handler value
(line 489).  JS property assignment is modelled by prepending, so the newest
assignment for an index shadows older ones on lookup. -/
abbrev Keys : Type := List (Chord × Binding)

/-- Reading `keys[index]` (lines 430, 460, 542). -/
def lookupKeys (keys : Keys) (index : Chord) : Option Binding :=
  (List.find? (fun p => p.1 == index) keys).map (fun p => p.2)

/-- The `KEY` code table, source lines 62-162. -/
def KEY_BACKSPACE : Nat := 8
def KEY_TAB : Nat := 9
def KEY_ENTER : Nat := 13
def KEY_BREAK : Nat := 19
def KEY_CAPSLOCK : Nat := 20
def KEY_ESC : Nat := 27
def KEY_SPACE : Nat := 32
def KEY_PAGEUP : Nat := 33
def KEY_PAGEDOWN : Nat := 34
def KEY_END : Nat := 35
def KEY_HOME : Nat := 36
def KEY_LEFT : Nat := 37
def KEY_UP : Nat := 38
def KEY_RIGHT : Nat := 39
def KEY_DOWN : Nat := 40
def KEY_INSERT : Nat := 45
def KEY_DELETE : Nat := 46
def KEY_ZERO : Nat := 48
def KEY_ONE : Nat := 49
def KEY_TWO : Nat := 50
def KEY_THREE : Nat := 51
def KEY_FOUR : Nat := 52
def KEY_FIVE : Nat := 53
def KEY_SIX : Nat := 54
def KEY_SEVEN : Nat := 55
def KEY_EIGHT : Nat := 56
def KEY_NINE : Nat := 57
def KEY_UMLAUT : Nat := 59
def KEY_A : Nat := 65
def KEY_B : Nat := 66
def KEY_C : Nat := 67
def KEY_D : Nat := 68
def KEY_E : Nat := 69
def KEY_F : Nat := 70
def KEY_G : Nat := 71
def KEY_H : Nat := 72
def KEY_I : Nat := 73
def KEY_J : Nat := 74
def KEY_K : Nat := 75
def KEY_L : Nat := 76
def KEY_M : Nat := 77
def KEY_N : Nat := 78
def KEY_O : Nat := 79
def KEY_P : Nat := 80
def KEY_Q : Nat := 81
def KEY_R : Nat := 82
def KEY_S : Nat := 83
def KEY_T : Nat := 84
def KEY_U : Nat := 85
def KEY_V : Nat := 86
def KEY_W : Nat := 87
def KEY_X : Nat := 88
def KEY_Y : Nat := 89
def KEY_Z : Nat := 90
def KEY_NUMPAD0 : Nat := 96
def KEY_NUMPAD1 : Nat := 97
def KEY_NUMPAD2 : Nat := 98
def KEY_NUMPAD3 : Nat := 99
def KEY_NUMPAD4 : Nat := 100
def KEY_NUMPAD5 : Nat := 101
def KEY_NUMPAD6 : Nat := 102
def KEY_NUMPAD7 : Nat := 103
def KEY_NUMPAD8 : Nat := 104
def KEY_NUMPAD9 : Nat := 105
def KEY_MULTIPLY : Nat := 106
def KEY_ADD : Nat := 107
def KEY_SUBTRACT : Nat := 109
def KEY_DECIMAL : Nat := 110
def KEY_DIVIDE : Nat := 111
def KEY_F1 : Nat := 112
def KEY_F2 : Nat := 113
def KEY_F3 : Nat := 114
def KEY_F4 : Nat := 115
def KEY_F5 : Nat := 116
def KEY_F6 : Nat := 117
def KEY_F7 : Nat := 118
def KEY_F8 : Nat := 119
def KEY_F9 : Nat := 120
def KEY_F10 : Nat := 121
def KEY_F11 : Nat := 122
def KEY_F12 : Nat := 123
def KEY_NUMLOCK : Nat := 144
def KEY_SCROLL : Nat := 145
def KEY_UMLAUT_2 : Nat := 186
def KEY_PLUS : Nat := 187
def KEY_COMMA : Nat := 188
def KEY_MINUS : Nat := 189
def KEY_PERIOD : Nat := 190
def KEY_APOSTROPHE : Nat := 191
def KEY_AE : Nat := 192
def KEY_ACCENT : Nat := 219
def KEY_HALF : Nat := 220
def KEY_AA : Nat := 221
def KEY_OE : Nat := 222
def KEY_ANGLE : Nat := 226
def KEY_CTRL : Nat := 256
def KEY_SHIFT : Nat := 512
def KEY_ALT : Nat := 1024

/-- One entry of the list fed to the `broken` table setup loop
(source lines 236-376): combined integer key, display name, browser list and
optional description of what the chord natively does. -/
structure BrokenEntry where
  key : Nat
  name : String
  browsers : String
  does : Option String
deriving DecidableEq, Repr

set_option maxHeartbeats 2000000 in
/-- The list of known unmappable chords, source lines 236-376, in source
order. -/
def brokenList : List BrokenEntry := [
  ⟨KEY_CTRL + KEY_TAB, "Ctrl+Tab", "Win-FF3, Win-IE7", some "next tab"⟩,
  ⟨KEY_ALT + KEY_TAB, "Alt+Tab", "Win-all", some "task switch"⟩,
  ⟨KEY_ALT + KEY_ENTER, "Alt+Enter", "Win-IE7", some "full screen"⟩,
  ⟨KEY_BREAK, "Break", "Mac-all", some "key doesn't exist on Mac"⟩,
  ⟨KEY_CTRL + KEY_BREAK, "Ctrl+Break", "Win-all, Mac-all", some "nothing on Win, key doesn't exist on Mac"⟩,
  ⟨KEY_SHIFT + KEY_BREAK, "Shift+Break", "Mac-all", some "key doesn't exist on Mac"⟩,
  ⟨KEY_ALT + KEY_BREAK, "Alt+Break", "Mac-all", some "key doesn't exist on Mac"⟩,
  ⟨KEY_CAPSLOCK, "CapsLock", "all browsers", none⟩,
  ⟨KEY_CTRL + KEY_CAPSLOCK, "Ctrl+CapsLock", "all browsers", none⟩,
  ⟨KEY_SHIFT + KEY_CAPSLOCK, "Shift+CapsLock", "all browsers", none⟩,
  ⟨KEY_ALT + KEY_CAPSLOCK, "Alt+CapsLock", "all browsers", none⟩,
  ⟨KEY_CTRL + KEY_ESC, "Ctrl+Esc", "Win-all", some "start menu"⟩,
  ⟨KEY_ALT + KEY_ESC, "Alt+Esc", "Win-all", some "task switch"⟩,
  ⟨KEY_CTRL + KEY_SPACE, "Ctrl+Space", "Mac-all", some "spotlight"⟩,
  ⟨KEY_ALT + KEY_SPACE, "Alt+Space", "Win-all", some "system menu"⟩,
  ⟨KEY_CTRL + KEY_PAGEUP, "Ctrl+PAGEUP", "Win-FF3", some "previous tab"⟩,
  ⟨KEY_CTRL + KEY_PAGEDOWN, "Ctrl+PAGEDOWN", "Win-FF3", some "next tab"⟩,
  ⟨KEY_ALT + KEY_HOME, "Alt+Home", "Win-IE7", some "home page"⟩,
  ⟨KEY_ALT + KEY_LEFT, "Alt+Left", "Win-Safari3", some "history back"⟩,
  ⟨KEY_ALT + KEY_RIGHT, "Alt+Right", "Win-Safari3", some "history forward"⟩,
  ⟨KEY_CTRL + KEY_ZERO, "Ctrl+0", "Win-IE7, Win-Safari3", some "reset zoom"⟩,
  ⟨KEY_UMLAUT, "�", "Mac-Safari3", none⟩,
  ⟨KEY_CTRL + KEY_UMLAUT, "Ctrl+�", "Mac-Safari3", none⟩,
  ⟨KEY_SHIFT + KEY_UMLAUT, "Shift+�", "Mac-Safari3", none⟩,
  ⟨KEY_ALT + KEY_UMLAUT, "Alt+�", "Mac-Safari3", none⟩,
  ⟨KEY_ALT + KEY_A, "Alt+A", "Win-IE7", some "address bar"⟩,
  ⟨KEY_ALT + KEY_B, "Alt+B", "Win-Safari3", some "bookmarks"⟩,
  ⟨KEY_ALT + KEY_D, "Alt+D", "Win-IE7, Win-Safari3", some "address bar"⟩,
  ⟨KEY_ALT + KEY_E, "Alt+E", "Win-Safari3", some "edit menu"⟩,
  ⟨KEY_CTRL + KEY_F, "Ctrl+F", "Win-IE7, WIn-Safari3", some "find"⟩,
  ⟨KEY_ALT + KEY_F, "Alt+F", "Win-Safari3", some "file menu"⟩,
  ⟨KEY_ALT + KEY_H, "Alt+H", "Win-Safari3", some "help menu"⟩,
  ⟨KEY_ALT + KEY_I, "Alt+I", "Win-Safari3", some "history menu"⟩,
  ⟨KEY_CTRL + KEY_O, "Ctrl+O", "Win-IE7, Win-Safari3", some "open"⟩,
  ⟨KEY_CTRL + KEY_P, "Ctrl+P", "Win-IE7, Win-Safari3", some "print"⟩,
  ⟨KEY_ALT + KEY_V, "Alt+V", "Win-Safari3", some "view menu"⟩,
  ⟨KEY_ALT + KEY_W, "Alt+W", "Win-Safari3", some "window menu"⟩,
  ⟨KEY_SHIFT + KEY_NUMPAD0, "Shift+Pad0", "all browsers", none⟩,
  ⟨KEY_SHIFT + KEY_NUMPAD1, "Shift+Pad1", "all browsers", none⟩,
  ⟨KEY_SHIFT + KEY_NUMPAD2, "Shift+Pad2", "all browsers", none⟩,
  ⟨KEY_SHIFT + KEY_NUMPAD3, "Shift+Pad3", "all browsers", none⟩,
  ⟨KEY_SHIFT + KEY_NUMPAD4, "Shift+Pad4", "all browsers", none⟩,
  ⟨KEY_SHIFT + KEY_NUMPAD5, "Shift+Pad5", "all browsers", none⟩,
  ⟨KEY_SHIFT + KEY_NUMPAD6, "Shift+Pad6", "all browsers", none⟩,
  ⟨KEY_SHIFT + KEY_NUMPAD7, "Shift+Pad7", "all browsers", none⟩,
  ⟨KEY_SHIFT + KEY_NUMPAD8, "Shift+Pad8", "all browsers", none⟩,
  ⟨KEY_SHIFT + KEY_NUMPAD9, "Shift+Pad9", "all browsers", none⟩,
  ⟨KEY_CTRL + KEY_ADD, "Ctrl+Pad+", "Win-IE7", some "zoom"⟩,
  ⟨KEY_CTRL + KEY_SUBTRACT, "Ctrl+Pad-", "Win-IE7", some "zoom"⟩,
  ⟨KEY_SHIFT + KEY_DECIMAL, "Shift+PadDecimal", "all browsers", none⟩,
  ⟨KEY_F1, "F1", "Win-IE7", some "help"⟩,
  ⟨KEY_CTRL + KEY_F1, "Ctrl+F1", "Win-IE7, Mac-Safari3", some "help on Windows, nothing on Mac"⟩,
  ⟨KEY_SHIFT + KEY_F1, "Shift+F1", "Win-IE7", some "help"⟩,
  ⟨KEY_CTRL + KEY_F3, "Ctrl+F3", "Mac-all", some "finder"⟩,
  ⟨KEY_CTRL + KEY_F4, "Ctrl+F4", "Win-all", some "close window"⟩,
  ⟨KEY_ALT + KEY_F4, "Alt+F4", "Win-all", some "close browser"⟩,
  ⟨KEY_F5, "F5", "Win-Safari3", some "reload"⟩,
  ⟨KEY_ALT + KEY_F6, "Alt+F6", "Win-IE7, Win-Safari3", none⟩,
  ⟨KEY_CTRL + KEY_F8, "Ctrl+F8", "Mac-all", some "time machine"⟩,
  ⟨KEY_F9, "F9", "Mac-all", some "exposé"⟩,
  ⟨KEY_SHIFT + KEY_F9, "Shift+F9", "Mac-all", some "exposé"⟩,
  ⟨KEY_F10, "F10", "Mac-all", some "exposé"⟩,
  ⟨KEY_SHIFT + KEY_F10, "Shift+F10", "Win-Safari3, Mac-all", some "context menu on Windows, exposé on Mac"⟩,
  ⟨KEY_F11, "F11", "Mac-all", some "exposé"⟩,
  ⟨KEY_SHIFT + KEY_F11, "Shift+F11", "Mac-all", some "exposé"⟩,
  ⟨KEY_F12, "F12", "Mac-all", some "exposé"⟩,
  ⟨KEY_SHIFT + KEY_F12, "Shift+F12", "Mac-all", some "exposé"⟩,
  ⟨KEY_NUMLOCK, "NumLock", "all browsers", none⟩,
  ⟨KEY_CTRL + KEY_NUMLOCK, "Ctrl+NumLock", "all browsers", none⟩,
  ⟨KEY_SHIFT + KEY_NUMLOCK, "Shift+NumLock", "all browsers", none⟩,
  ⟨KEY_ALT + KEY_NUMLOCK, "Alt+NumLock", "all browsers", none⟩,
  ⟨KEY_SCROLL, "ScrollLock", "all browsers", none⟩,
  ⟨KEY_CTRL + KEY_SCROLL, "Ctrl+ScrollLock", "all browsers", none⟩,
  ⟨KEY_SHIFT + KEY_SCROLL, "Shift+ScrollLock", "all browsers", none⟩,
  ⟨KEY_ALT + KEY_SCROLL, "Alt+ScrollLock", "all browsers", none⟩,
  ⟨KEY_PLUS, "+", "Win-FF2, Win-FF3", none⟩,
  ⟨KEY_CTRL + KEY_PLUS, "Ctrl++", "Win-FF2, Win-FF3, Win-IE7, Win-Safari3", some "zoom in FF2, IE7 and Safari 3"⟩,
  ⟨KEY_SHIFT + KEY_PLUS, "Shift++", "Win-FF2, Win-FF3", none⟩,
  ⟨KEY_ALT + KEY_PLUS, "Alt++", "Win-FF2, Win-FF3", none⟩,
  ⟨KEY_MINUS, "-", "Win-FF2, Win-FF3", none⟩,
  ⟨KEY_CTRL + KEY_MINUS, "Ctrl+-", "Win-FF2, Win-FF3, Win-IE7, Win-Safari3", some "zoom in IE7 and Safari 3"⟩,
  ⟨KEY_SHIFT + KEY_MINUS, "Shift+-", "Win-FF2, Win-FF3", none⟩,
  ⟨KEY_ALT + KEY_MINUS, "Alt+-", "Win-FF2, Win-FF3", none⟩,
  ⟨KEY_ALT + KEY_AE, "Alt+Æ", "Win-IE7", none⟩,
  ⟨KEY_ACCENT, "´", "Mac-Safari3", none⟩,
  ⟨KEY_CTRL + KEY_ACCENT, "Ctrl+´", "Mac-Safari3", none⟩,
  ⟨KEY_SHIFT + KEY_ACCENT, "Shift+´", "Mac-Safari3", none⟩,
  ⟨KEY_ALT + KEY_ACCENT, "Alt+´", "Mac-Safari3", none⟩,
  ⟨KEY_HALF, "½", "Mac-Safari3", none⟩,
  ⟨KEY_CTRL + KEY_HALF, "Ctrl+½", "Mac-Safari3", none⟩,
  ⟨KEY_SHIFT + KEY_HALF, "Shift+½", "Mac-Safari3", none⟩,
  ⟨KEY_ALT + KEY_HALF, "Alt+½", "Mac-Safari3", none⟩,
  ⟨KEY_ALT, "Alt", "IE7", some "activate menu"⟩]

/-- The text stored for one broken entry by the setup loop, source
lines 377-381: `name + ' is unmappable in ' + browsers` plus
`' (' + does + ')'` when a description is present. -/
def brokenText (e : BrokenEntry) : String :=
  e.name ++ " is unmappable in " ++ e.browsers ++
    (match e.does with
     | some d => " (" ++ d ++ ")"
     | none => "")

/-- Reading `broken[key]` (lines 522-523): the table maps each entry's
combined integer key to its text.  The entry keys are pairwise distinct
(`brokenList_keys_nodup`), so first-match lookup agrees with the JS object
built by the assignment loop. -/
def broken (key : Nat) : Option String :=
  (List.find? (fun e => e.key == key) brokenList).map brokenText

/-- Source line 229. -/
def KEYMASK : Nat := 255
/-- Source line 230. -/
def KEYSHIFT : Nat := 16
/-- Source line 231. -/
def KEYCTRL : Nat := 17
/-- Source line 232. -/
def KEYALT : Nat := 18

/-- The `safariTranslator` keyIdentifier table, source lines 388-409, in
source order. -/
def safariTranslatorList : List (String × Nat) := [
  ("U+0022", KEY_TWO),
  ("U+0026", KEY_SIX),
  ("U+0027", KEY_APOSTROPHE),
  ("U+0028", KEY_EIGHT),
  ("U+0029", KEY_NINE),
  ("U+002A", KEY_APOSTROPHE),
  ("U+002F", KEY_SEVEN),
  ("U+003A", KEY_PERIOD),
  ("U+003B", KEY_COMMA),
  ("U+003C", KEY_ANGLE),
  ("U+003D", KEY_ZERO),
  ("U+003E", KEY_ANGLE),
  ("U+003F", KEY_PLUS),
  ("U+00C5", KEY_AA),
  ("U+00C6", KEY_AE),
  ("U+00D8", KEY_OE),
  ("U+00E5", KEY_AA),
  ("U+00E6", KEY_AE),
  ("U+00F8", KEY_OE),
  ("U+20AC", KEY_FOUR)]

/-- Reading `safariTranslator[id]` (lines 424, 454).  All stored codes are
nonzero, hence truthy in JS. -/
def safariTranslator (id : String) : Option Nat :=
  (List.find? (fun p => p.1 == id) safariTranslatorList).map (fun p => p.2)

/-- JS truthiness of `event.keyIdentifier`: an absent identifier and the
empty string are falsy, every other string is truthy. -/
def truthyId : Option String → Bool
  | some id => id != ""
  | none => false

/-- The chord index computed by the key-down canceller, source
lines 424-428: webkit with a truthy `keyIdentifier` that translates uses
the translated code, every other case uses the raw `keyCode`. -/
def cancelChord (webkit : Bool) (event : KeyEvent) : Chord :=
  if webkit && truthyId event.keyIdentifier &&
      (safariTranslator (event.keyIdentifier.getD "")).isSome then
    { baseCode := (safariTranslator (event.keyIdentifier.getD "")).getD event.keyCode,
      ctrl := event.ctrlKey, shift := event.shiftKey, alt := event.altKey }
  else
    { baseCode := event.keyCode, ctrl := event.ctrlKey,
      shift := event.shiftKey, alt := event.altKey }

/-- The chord index computed by the key-up handler, source lines 454-458
(the same computation, duplicated verbatim in the source). -/
def monitorChord (webkit : Bool) (event : KeyEvent) : Chord :=
  if webkit && truthyId event.keyIdentifier &&
      (safariTranslator (event.keyIdentifier.getD "")).isSome then
    { baseCode := (safariTranslator (event.keyIdentifier.getD "")).getD event.keyCode,
      ctrl := event.ctrlKey, shift := event.shiftKey, alt := event.altKey }
  else
    { baseCode := event.keyCode, ctrl := event.ctrlKey,
      shift := event.shiftKey, alt := event.altKey }

/-- `isAccessKey`, source lines 412-417: Alt held and the code is a digit
or letter. -/
def isAccessKey (key : Nat) (alt : Bool) : Bool :=
  alt && ((decide (KEY_ZERO ≤ key) && decide (key ≤ KEY_NINE)) ||
          (decide (KEY_A ≤ key) && decide (key ≤ KEY_Z)))

/-- Result of delivering one native event to a handler function: the `keys`
object afterwards (neither handler assigns to it, so it is returned as
received) and the ordered side effects. -/
structure EvtResult where
  keys : Keys
  actions : List Action
deriving DecidableEq, Repr

/-- The key-down canceller `cancel`, source lines 421-448: on a bound chord
it stops the event, then under IE zeroes the reported code for F-keys and
repositions the access-key div for Alt+alphanumeric; on an unbound chord it
does nothing. -/
def cancel (webkit msie : Bool) (keys : Keys) (event : KeyEvent) : EvtResult :=
  let key := cancelChord webkit event
  match lookupKeys keys key with
  | some _ =>
    let zeroesFKey := msie && decide (112 ≤ event.keyCode) && decide (event.keyCode ≤ 123)
    let keyCodeAfter := if zeroesFKey then 0 else event.keyCode
    { keys := keys,
      actions := [Action.stopEvent] ++
        (if zeroesFKey then [Action.zeroKeyCode] else []) ++
        (if msie && isAccessKey keyCodeAfter event.altKey then
           [Action.setStyleAltDiv keyCodeAfter]
         else []) }
  | none => { keys := keys, actions := [] }

/-- The key-up handler `monitor`, source lines 451-475: on a bound chord it
invokes the stored handler (bare function in the context of the event
target, `[context, function]` pair in the given context) and then stops the
event; on an unbound chord it does nothing. -/
def monitor (webkit : Bool) (keys : Keys) (event : KeyEvent) : EvtResult :=
  let key := monitorChord webkit event
  match lookupKeys keys key with
  | some handler =>
    { keys := keys,
      actions :=
        (match handler with
         | Binding.fn f => [Action.invoke f Receiver.eventTarget event]
         | Binding.pair c f => [Action.invoke f (Receiver.contextObj c) event]) ++
        [Action.stopEvent] }
  | none => { keys := keys, actions := [] }

/-- The function component of a stored handler value (dispatch switch,
source lines 463-472). -/
def bindingCallback : Binding → Nat
  | Binding.fn f => f
  | Binding.pair _ f => f

/-- The receiver a stored handler value is invoked with: the event target
for a bare function (line 466), the explicit context for a pair
(line 470). -/
def bindingReceiver : Binding → Receiver
  | Binding.fn _ => Receiver.eventTarget
  | Binding.pair c _ => Receiver.contextObj c

/-- Which branch of `handler.register` ran: success (source lines 545-575),
the broken-key refusal (lines 521-525) or the already-mapped refusal
(lines 542-544).  The two refusal branches are the spec's BrokenChordError
and ConflictError. -/
inductive RegOutcome where
  | ok
  | brokenError (description : String)
  | conflictError (index : Chord)
deriving DecidableEq, Repr

/-- Result of one `handler.register` call: the `keys` object afterwards,
the branch taken and the ordered side effects. -/
structure RegResult where
  keys : Keys
  outcome : RegOutcome
  effects : List Action
deriving DecidableEq, Repr

/-- The index a chord-spec integer is stored under: the bit decoding of
source lines 513-517 followed by the solitary Ctrl/Shift/Alt remapping of
lines 527-540. -/
def specIndex (key : Nat) : Chord :=
  let keyCode := key &&& KEYMASK
  let index : Chord :=
    { baseCode := keyCode,
      ctrl := (key &&& KEY_CTRL) != 0,
      shift := (key &&& KEY_SHIFT) != 0,
      alt := (key &&& KEY_ALT) != 0 }
  if keyCode == 0 then
    if key == KEY_CTRL then
      { baseCode := KEYCTRL, ctrl := false, shift := false, alt := false }
    else if key == KEY_SHIFT then
      { baseCode := KEYSHIFT, ctrl := false, shift := false, alt := false }
    else if key == KEY_ALT then
      { baseCode := KEYALT, ctrl := false, shift := false, alt := false }
    else index
  else index

/-- `handler.register`, source lines 512-576: refuse a broken key unless
overridden (alerting, lines 521-525), refuse an already-mapped index
(alerting, lines 542-544), otherwise store the handler value, additionally
store the UMLAUT_2 alias when the index base code is the umlaut key
(lines 548-551), and under IE append an access-key div for
Alt+alphanumeric (lines 553-574). -/
def register (msie : Bool) (keys : Keys) (key : Nat) (method : Binding)
    (override : Bool) : RegResult :=
  let index := specIndex key
  match broken key, override with
  | some text, false =>
    { keys := keys,
      outcome := RegOutcome.brokenError text,
      effects := [Action.alertMsg (text ++ ".\nThis key mapping has been ignored.\nIf you really want to map this key, set the override parameter to true.")] }
  | _, _ =>
    match lookupKeys keys index with
    | some _ =>
      { keys := keys,
        outcome := RegOutcome.conflictError index,
        effects := [Action.alertMsg ("Key " ++ toString index.baseCode ++
          " (ctrl=" ++ toString index.ctrl ++ ", shift=" ++ toString index.shift ++
          ", alt=" ++ toString index.alt ++ ") already mapped!")] }
    | none =>
      let keys1 : Keys := (index, method) :: keys
      let keys2 : Keys :=
        if index.baseCode == KEY_UMLAUT then
          ({ baseCode := KEY_UMLAUT_2, ctrl := index.ctrl, shift := index.shift,
             alt := index.alt }, method) :: keys1
        else keys1
      { keys := keys2,
        outcome := RegOutcome.ok,
        effects := if msie && isAccessKey index.baseCode index.alt then
            [Action.appendAccessDiv index.baseCode]
          else [] }

/-- Modelled from the spec, §4.1 ChordCodec: if the platform reports
layout-independent identifiers and the event carries an identifier present
in the translation table, the translated code is the base code; in every
other case the raw platform code is used directly. -/
def chordCodecSpec (webkit : Bool) (event : KeyEvent) : Chord :=
  match event.keyIdentifier with
  | some id =>
    if webkit then
      match safariTranslator id with
      | some code =>
        { baseCode := code, ctrl := event.ctrlKey,
          shift := event.shiftKey, alt := event.altKey }
      | none =>
        { baseCode := event.keyCode, ctrl := event.ctrlKey,
          shift := event.shiftKey, alt := event.altKey }
    else
      { baseCode := event.keyCode, ctrl := event.ctrlKey,
        shift := event.shiftKey, alt := event.altKey }
  | none =>
    { baseCode := event.keyCode, ctrl := event.ctrlKey,
      shift := event.shiftKey, alt := event.altKey }

/-! ## Theorems -/

set_option maxHeartbeats 2000000 in
/-- The keys of the broken table entries are pairwise distinct, so
first-match lookup in `broken` agrees with the JS object built by the
assignment loop of source lines 376-382. -/
theorem brokenList_keys_nodup : (brokenList.map (fun e => e.key)).Nodup := by
  decide

/-- The two handlers' chord computations (source lines 424-428 and 454-458)
are the same function. -/
theorem cancelChord_eq_monitorChord (webkit : Bool) (event : KeyEvent) :
    cancelChord webkit event = monitorChord webkit event := rfl

/-- Looking a chord up in a registry with one more stored pair. -/
theorem lookupKeys_cons (p : Chord × Binding) (keys : Keys) (index : Chord) :
    lookupKeys (p :: keys) index =
      if p.1 = index then some p.2 else lookupKeys keys index := by
  by_cases h : p.1 = index
  · simp [lookupKeys, List.find?_cons_of_pos, h]
  · simp [lookupKeys, List.find?_cons_of_neg, h]

/-- A spec integer with a nonzero low byte is not subject to the solitary
modifier remapping: its index is the plain bit decoding. -/
theorem specIndex_of_ne_zero (c : Nat) (h : c &&& KEYMASK ≠ 0) :
    specIndex c =
      { baseCode := c &&& KEYMASK, ctrl := (c &&& KEY_CTRL) != 0,
        shift := (c &&& KEY_SHIFT) != 0, alt := (c &&& KEY_ALT) != 0 } := by
  unfold specIndex
  simp [h]

/-- A successful `register` call implies its two guards passed: the broken
check and the already-mapped check. -/
theorem register_ok_inv (msie : Bool) (keys : Keys) (c : Nat) (b : Binding)
    (ov : Bool)
    (hok : (register msie keys c b ov).outcome = RegOutcome.ok) :
    (ov = true ∨ broken c = none) ∧ lookupKeys keys (specIndex c) = none := by
  cases hb : broken c <;> cases ov <;> cases hl : lookupKeys keys (specIndex c) <;>
    simp [register, hb, hl] at hok ⊢

/-- The success branch of `register`: the outcome is ok and the stored
registry is the old one with the new pair prepended, preceded by the
UMLAUT_2 alias pair when the index base code is the umlaut key. -/
theorem register_ok_keys (msie : Bool) (keys : Keys) (c : Nat) (b : Binding)
    (ov : Bool)
    (hpass : ov = true ∨ broken c = none)
    (hunbound : lookupKeys keys (specIndex c) = none) :
    (register msie keys c b ov).outcome = RegOutcome.ok ∧
    (register msie keys c b ov).keys =
      (if (specIndex c).baseCode = KEY_UMLAUT then
        [({ baseCode := KEY_UMLAUT_2, ctrl := (specIndex c).ctrl,
            shift := (specIndex c).shift, alt := (specIndex c).alt }, b)]
       else []) ++ (specIndex c, b) :: keys := by
  rcases hpass with h | h
  · subst h
    cases hb : broken c <;> by_cases h59 : (specIndex c).baseCode = KEY_UMLAUT <;>
      simp [register, hb, hunbound, h59]
  · cases ov <;> by_cases h59 : (specIndex c).baseCode = KEY_UMLAUT <;>
      simp [register, h, hunbound, h59]

/-- After a successful `register`, looking up the stored index yields the
stored handler value. -/
theorem register_ok_lookup (msie : Bool) (keys : Keys) (c : Nat) (b : Binding)
    (ov : Bool)
    (hpass : ov = true ∨ broken c = none)
    (hunbound : lookupKeys keys (specIndex c) = none) :
    lookupKeys (register msie keys c b ov).keys (specIndex c) = some b := by
  rw [(register_ok_keys msie keys c b ov hpass hunbound).2]
  by_cases h59 : (specIndex c).baseCode = KEY_UMLAUT
  · have halias :
        Chord.mk KEY_UMLAUT_2 (specIndex c).ctrl (specIndex c).shift (specIndex c).alt ≠
          specIndex c := by
      intro hcontra
      have hbase := congrArg Chord.baseCode hcontra
      rw [h59] at hbase
      simp [KEY_UMLAUT_2, KEY_UMLAUT] at hbase
    simp [h59, lookupKeys_cons, halias]
  · simp [h59, lookupKeys_cons]

/-- C1, counterexample: the chord-spec integer 326 (Ctrl+F) is itself in the
broken table, so `register` without override is refused and stores nothing,
and the subsequent key-down and key-up deliveries carrying keyCode 70 with
Ctrl held perform no action at all: the callback is invoked zero times (not
exactly once) and the default action is suppressed on neither phase. -/
theorem c1_ctrlF_end_to_end_counterexample :
    (register false [] 326 (Binding.fn 0) false).outcome =
      RegOutcome.brokenError "Ctrl+F is unmappable in Win-IE7, WIn-Safari3 (find)" ∧
    (cancel false false (register false [] 326 (Binding.fn 0) false).keys
      ⟨70, true, false, false, none⟩).actions = [] ∧
    (monitor false (register false [] 326 (Binding.fn 0) false).keys
      ⟨70, true, false, false, none⟩).actions = [] :=
  ⟨rfl, rfl, rfl⟩

/-- C1, amended: with override = true the register call for chord-spec
integer 326 = 256 + 70 (Ctrl+F) succeeds, and delivering a native key-down
followed by a key-up carrying keyCode 70 and ctrlKey suppresses the default
action on both phases and invokes the callback exactly once, with the event
as argument, on the key-up phase. -/
theorem c1_ctrlF_end_to_end_override (webkit msie : Bool) (b : Binding) :
    (register msie [] 326 b true).outcome = RegOutcome.ok ∧
    (cancel webkit msie (register msie [] 326 b true).keys
      ⟨70, true, false, false, none⟩).actions = [Action.stopEvent] ∧
    (monitor webkit (register msie [] 326 b true).keys
      ⟨70, true, false, false, none⟩).actions =
      [Action.invoke (bindingCallback b) (bindingReceiver b)
        ⟨70, true, false, false, none⟩, Action.stopEvent] := by
  cases webkit <;> cases msie <;> cases b <;> exact ⟨rfl, rfl, rfl⟩

/-- C2: when the index of chord-spec c is already bound to b and the broken
check is passed (override true, or c not in the broken table), a second
register call refuses with the conflict branch, stores nothing, and leaves
the lookup of c at the prior binding b. -/
theorem c2_register_conflict (msie : Bool) (keys : Keys) (c : Nat)
    (b b2 : Binding) (ov : Bool)
    (hbound : lookupKeys keys (specIndex c) = some b)
    (hreach : ov = true ∨ broken c = none) :
    (register msie keys c b2 ov).outcome = RegOutcome.conflictError (specIndex c) ∧
    (register msie keys c b2 ov).keys = keys ∧
    lookupKeys (register msie keys c b2 ov).keys (specIndex c) = some b := by
  rcases hreach with h | h
  · subst h
    cases hb : broken c <;> simp [register, hb, hbound]
  · cases ov <;> simp [register, h, hbound]

/-- C2, witness: registering chord-spec 70 twice on the same registry. -/
theorem c2_register_conflict_witness :
    (register false [(specIndex 70, Binding.fn 1)] 70 (Binding.fn 2) false).outcome =
      RegOutcome.conflictError (specIndex 70) ∧
    (register false [(specIndex 70, Binding.fn 1)] 70 (Binding.fn 2) false).keys =
      [(specIndex 70, Binding.fn 1)] ∧
    lookupKeys (register false [(specIndex 70, Binding.fn 1)] 70 (Binding.fn 2) false).keys
      (specIndex 70) = some (Binding.fn 1) :=
  c2_register_conflict false [(specIndex 70, Binding.fn 1)] 70 (Binding.fn 1)
    (Binding.fn 2) false (by rfl) (Or.inr (by rfl))

/-- C3: registering a chord whose spec integer is in the broken table
without override fails with the broken branch carrying the table's text and
leaves the chord unbound; the same call with override = true succeeds and
the lookup then returns the given binding. -/
theorem c3_register_broken (msie : Bool) (keys : Keys) (c : Nat) (b : Binding)
    (desc : String)
    (hbroken : broken c = some desc)
    (hunbound : lookupKeys keys (specIndex c) = none) :
    (register msie keys c b false).outcome = RegOutcome.brokenError desc ∧
    (register msie keys c b false).keys = keys ∧
    lookupKeys (register msie keys c b false).keys (specIndex c) = none ∧
    (register msie keys c b true).outcome = RegOutcome.ok ∧
    lookupKeys (register msie keys c b true).keys (specIndex c) = some b := by
  refine ⟨?_, ?_, ?_, ?_, ?_⟩
  · simp [register, hbroken]
  · simp [register, hbroken]
  · simp [register, hbroken, hunbound]
  · exact (register_ok_keys msie keys c b true (Or.inl rfl) hunbound).1
  · exact register_ok_lookup msie keys c b true (Or.inl rfl) hunbound

/-- C3, witness: the Alt+Tab chord-spec integer 1024 + 9 = 1033. -/
theorem c3_register_broken_witness :
    (register false [] 1033 (Binding.fn 0) false).outcome =
      RegOutcome.brokenError "Alt+Tab is unmappable in Win-all (task switch)" ∧
    (register false [] 1033 (Binding.fn 0) false).keys = [] ∧
    lookupKeys (register false [] 1033 (Binding.fn 0) false).keys (specIndex 1033) = none ∧
    (register false [] 1033 (Binding.fn 0) true).outcome = RegOutcome.ok ∧
    lookupKeys (register false [] 1033 (Binding.fn 0) true).keys (specIndex 1033) =
      some (Binding.fn 0) :=
  c3_register_broken false [] 1033 (Binding.fn 0)
    "Alt+Tab is unmappable in Win-all (task switch)" (by rfl) (by rfl)

/-- C4: one successful register call whose decoded base code is the umlaut
key 59 binds both the umlaut chord and the alias chord with base code 186
and the same modifier flags to the given binding. -/
theorem c4_umlaut_alias (msie : Bool) (keys : Keys) (c : Nat) (b : Binding)
    (ov : Bool)
    (hbase : c &&& KEYMASK = KEY_UMLAUT)
    (hok : (register msie keys c b ov).outcome = RegOutcome.ok) :
    lookupKeys (register msie keys c b ov).keys
      (Chord.mk KEY_UMLAUT ((c &&& KEY_CTRL) != 0) ((c &&& KEY_SHIFT) != 0)
        ((c &&& KEY_ALT) != 0)) = some b ∧
    lookupKeys (register msie keys c b ov).keys
      (Chord.mk KEY_UMLAUT_2 ((c &&& KEY_CTRL) != 0) ((c &&& KEY_SHIFT) != 0)
        ((c &&& KEY_ALT) != 0)) = some b := by
  have hzero : c &&& KEYMASK ≠ 0 := by rw [hbase]; simp [KEY_UMLAUT]
  have hidx : specIndex c =
      Chord.mk KEY_UMLAUT ((c &&& KEY_CTRL) != 0) ((c &&& KEY_SHIFT) != 0)
        ((c &&& KEY_ALT) != 0) := by
    rw [specIndex_of_ne_zero c hzero, hbase]
  obtain ⟨hpass, hunbound⟩ := register_ok_inv msie keys c b ov hok
  constructor
  · rw [← hidx]
    exact register_ok_lookup msie keys c b ov hpass hunbound
  · rw [(register_ok_keys msie keys c b ov hpass hunbound).2, hidx]
    simp [KEY_UMLAUT, lookupKeys_cons]

/-- C4, witness: chord-spec 827 = 256 + 512 + 59 (Ctrl+Shift+umlaut), which
is not in the broken table. -/
theorem c4_umlaut_alias_witness :
    lookupKeys (register false [] 827 (Binding.fn 0) false).keys
      (Chord.mk KEY_UMLAUT ((827 &&& KEY_CTRL) != 0) ((827 &&& KEY_SHIFT) != 0)
        ((827 &&& KEY_ALT) != 0)) = some (Binding.fn 0) ∧
    lookupKeys (register false [] 827 (Binding.fn 0) false).keys
      (Chord.mk KEY_UMLAUT_2 ((827 &&& KEY_CTRL) != 0) ((827 &&& KEY_SHIFT) != 0)
        ((827 &&& KEY_ALT) != 0)) = some (Binding.fn 0) :=
  c4_umlaut_alias false [] 827 (Binding.fn 0) false (by rfl) (by rfl)

/-- C5, counterexample: the broken-key check of `register` uses the raw
spec integer, so a spec whose base code is the secondary umlaut code 186 is
not subject to the umlaut broken refusal: registering 186 without override
succeeds, while registering the corresponding primary-code chord 59 without
override is refused. -/
theorem c5_secondary_not_broken_checked :
    (register false [] 186 (Binding.fn 0) false).outcome = RegOutcome.ok ∧
    (register false [] 59 (Binding.fn 0) false).outcome =
      RegOutcome.brokenError "� is unmappable in Mac-Safari3" :=
  ⟨rfl, rfl⟩

/-- C5, amended: the alias treatment of the secondary umlaut code 186 is
one-directional and happens only at registration of the primary code 59
(which also binds 186): a chord spec whose base code is 186 is not checked
against the umlaut broken entries — for every modifier combination it
succeeds without override on an empty registry — and it binds only the 186
chord, not the corresponding 59 chord. -/
theorem c5_umlaut2_one_directional (b : Binding) (ctrl shiftF altF : Bool) :
    (register false []
      (186 + (if ctrl then 256 else 0) + (if shiftF then 512 else 0) +
        (if altF then 1024 else 0)) b false).outcome = RegOutcome.ok ∧
    lookupKeys (register false []
      (186 + (if ctrl then 256 else 0) + (if shiftF then 512 else 0) +
        (if altF then 1024 else 0)) b false).keys
      (Chord.mk 186 ctrl shiftF altF) = some b ∧
    lookupKeys (register false []
      (186 + (if ctrl then 256 else 0) + (if shiftF then 512 else 0) +
        (if altF then 1024 else 0)) b false).keys
      (Chord.mk 59 ctrl shiftF altF) = none := by
  cases ctrl <;> cases shiftF <;> cases altF <;> exact ⟨rfl, rfl, rfl⟩

/-- C6: both the key-down and the key-up handler compute the chord by the
same algorithm, and that algorithm satisfies the spec's translation rule:
under webkit, with an identifier present and found in the translation
table, the translated code is the base code; in every other case the raw
platform keyCode is used directly; the result is always a fully formed
chord (both computations are total functions into `Chord`). -/
theorem c6_chord_normalization (webkit : Bool) (event : KeyEvent) :
    cancelChord webkit event = monitorChord webkit event ∧
    cancelChord webkit event = chordCodecSpec webkit event := by
  refine ⟨rfl, ?_⟩
  rcases event with ⟨kc, ck, sk, ak, id⟩
  cases id with
  | none => cases webkit <;> rfl
  | some s =>
    cases webkit with
    | false => rfl
    | true =>
      by_cases hempty : s = ""
      · subst hempty; rfl
      · cases htr : safariTranslator s with
        | none => simp [cancelChord, chordCodecSpec, truthyId, htr, hempty]
        | some code => simp [cancelChord, chordCodecSpec, truthyId, htr, hempty]

/-- C7: delivering an event whose computed chord has no binding performs no
action at all on either phase — no callback invocation, no default-action
suppression, no IE fixups — and returns the keys object unchanged. -/
theorem c7_unbound_noop (webkit msie : Bool) (keys : Keys) (event : KeyEvent)
    (hunbound : lookupKeys keys (monitorChord webkit event) = none) :
    (monitor webkit keys event).keys = keys ∧
    (monitor webkit keys event).actions = [] ∧
    (cancel webkit msie keys event).keys = keys ∧
    (cancel webkit msie keys event).actions = [] := by
  have hc : lookupKeys keys (cancelChord webkit event) = none := by
    rw [cancelChord_eq_monitorChord]; exact hunbound
  refine ⟨?_, ?_, ?_, ?_⟩ <;> simp [monitor, cancel, hunbound, hc]

/-- C7, witness: an unbound Ctrl+F key event on an empty registry. -/
theorem c7_unbound_noop_witness :
    (monitor false [] ⟨70, true, false, false, none⟩).keys = [] ∧
    (monitor false [] ⟨70, true, false, false, none⟩).actions = [] ∧
    (cancel false false [] ⟨70, true, false, false, none⟩).keys = [] ∧
    (cancel false false [] ⟨70, true, false, false, none⟩).actions = [] :=
  c7_unbound_noop false false [] ⟨70, true, false, false, none⟩ (by rfl)

/-- C8: on a key-up whose computed chord is bound, the dispatcher invokes
the stored callback exactly once with the event as argument — receiver the
explicit context for a `[context, function]` pair and the event's target
otherwise — and suppresses the default action and stops propagation only
after the invocation; the keys object is unchanged. -/
theorem c8_keyup_dispatch (webkit : Bool) (keys : Keys) (event : KeyEvent)
    (b : Binding)
    (hbound : lookupKeys keys (monitorChord webkit event) = some b) :
    (monitor webkit keys event).actions =
      [Action.invoke (bindingCallback b) (bindingReceiver b) event,
       Action.stopEvent] ∧
    (monitor webkit keys event).keys = keys := by
  cases b <;> simp [monitor, hbound, bindingCallback, bindingReceiver]

/-- C8, witness: a bound Ctrl+F key-up with a `[context, function]` pair
binding. -/
theorem c8_keyup_dispatch_witness :
    (monitor false [(Chord.mk 70 true false false, Binding.pair 5 9)]
      ⟨70, true, false, false, none⟩).actions =
      [Action.invoke (bindingCallback (Binding.pair 5 9))
        (bindingReceiver (Binding.pair 5 9)) ⟨70, true, false, false, none⟩,
       Action.stopEvent] ∧
    (monitor false [(Chord.mk 70 true false false, Binding.pair 5 9)]
      ⟨70, true, false, false, none⟩).keys =
      [(Chord.mk 70 true false false, Binding.pair 5 9)] :=
  c8_keyup_dispatch false [(Chord.mk 70 true false false, Binding.pair 5 9)]
    ⟨70, true, false, false, none⟩ (Binding.pair 5 9) (by rfl)

/-- C9, counterexample: `handler.register` performs the user-facing warning
itself: on the broken-key refusal for Alt+Tab and on the conflict refusal
its effect list is a call of the blocking alert carrying the warning text,
rather than empty with the warning delegated to the caller. -/
theorem c9_register_alerts_counterexample :
    (register false [] 1033 (Binding.fn 0) false).effects =
      [Action.alertMsg "Alt+Tab is unmappable in Win-all (task switch).\nThis key mapping has been ignored.\nIf you really want to map this key, set the override parameter to true."] ∧
    (register false [(specIndex 70, Binding.fn 1)] 70 (Binding.fn 2) false).effects =
      [Action.alertMsg "Key 70 (ctrl=false, shift=false, alt=false) already mapped!"] :=
  ⟨rfl, rfl⟩

/-- C9, amended: on both failure outcomes `register` itself presents the
user-facing warning by calling the blocking alert — carrying the broken
table's text, resp. the conflict details — as its only side effect, and
stores nothing. -/
theorem c9_register_alert_on_failure (msie : Bool) (keys : Keys) (c : Nat)
    (b : Binding) :
    (∀ desc, broken c = some desc →
      (register msie keys c b false).effects =
        [Action.alertMsg (desc ++ ".\nThis key mapping has been ignored.\nIf you really want to map this key, set the override parameter to true.")] ∧
      (register msie keys c b false).keys = keys) ∧
    (∀ ov b0, lookupKeys keys (specIndex c) = some b0 →
        (ov = true ∨ broken c = none) →
      (register msie keys c b ov).effects =
        [Action.alertMsg ("Key " ++ toString (specIndex c).baseCode ++
          " (ctrl=" ++ toString (specIndex c).ctrl ++
          ", shift=" ++ toString (specIndex c).shift ++
          ", alt=" ++ toString (specIndex c).alt ++ ") already mapped!")] ∧
      (register msie keys c b ov).keys = keys) := by
  constructor
  · intro desc hbroken
    constructor <;> simp [register, hbroken]
  · intro ov b0 hbound hreach
    rcases hreach with h | h
    · subst h
      cases hb : broken c <;> simp [register, hb, hbound]
    · cases ov <;> simp [register, h, hbound]

/-- C9, witness: the broken branch at Alt+Tab (spec 1033) and the conflict
branch at spec 70. -/
theorem c9_register_alert_on_failure_witness :
    ((register false [] 1033 (Binding.fn 0) false).effects =
      [Action.alertMsg ("Alt+Tab is unmappable in Win-all (task switch)" ++ ".\nThis key mapping has been ignored.\nIf you really want to map this key, set the override parameter to true.")] ∧
     (register false [] 1033 (Binding.fn 0) false).keys = []) ∧
    ((register false [(specIndex 70, Binding.fn 1)] 70 (Binding.fn 2) false).effects =
      [Action.alertMsg ("Key " ++ toString (specIndex 70).baseCode ++
        " (ctrl=" ++ toString (specIndex 70).ctrl ++
        ", shift=" ++ toString (specIndex 70).shift ++
        ", alt=" ++ toString (specIndex 70).alt ++ ") already mapped!")] ∧
     (register false [(specIndex 70, Binding.fn 1)] 70 (Binding.fn 2) false).keys =
       [(specIndex 70, Binding.fn 1)]) :=
  ⟨(c9_register_alert_on_failure false [] 1033 (Binding.fn 0)).1
      "Alt+Tab is unmappable in Win-all (task switch)" (by rfl),
   (c9_register_alert_on_failure false [(specIndex 70, Binding.fn 1)] 70
      (Binding.fn 2)).2 false (Binding.fn 1) (by rfl) (Or.inr (by rfl))⟩

/-- C10: a successful register of a spec integer whose low 8 bits are zero
stores the binding under the remapped index (17, resp. 16, resp. 18, with
all modifier flags false) for exactly 256, 512, 1024, and under base code 0
with the decoded modifier flags for every other such spec. -/
theorem c10_solitary_modifier_remap (msie : Bool) (keys : Keys) (c : Nat)
    (b : Binding) (ov : Bool)
    (hlow : c &&& KEYMASK = 0)
    (hok : (register msie keys c b ov).outcome = RegOutcome.ok) :
    specIndex c =
      (if c = 256 then Chord.mk KEYCTRL false false false
       else if c = 512 then Chord.mk KEYSHIFT false false false
       else if c = 1024 then Chord.mk KEYALT false false false
       else Chord.mk 0 ((c &&& KEY_CTRL) != 0) ((c &&& KEY_SHIFT) != 0)
         ((c &&& KEY_ALT) != 0)) ∧
    lookupKeys (register msie keys c b ov).keys (specIndex c) = some b := by
  obtain ⟨hpass, hunbound⟩ := register_ok_inv msie keys c b ov hok
  refine ⟨?_, register_ok_lookup msie keys c b ov hpass hunbound⟩
  simp only [specIndex, hlow]
  by_cases h1 : c = 256
  · simp [h1, KEY_CTRL, KEY_SHIFT, KEY_ALT, KEYCTRL, KEYSHIFT, KEYALT]
  · by_cases h2 : c = 512
    · simp [h1, h2, KEY_CTRL, KEY_SHIFT, KEY_ALT, KEYCTRL, KEYSHIFT, KEYALT]
    · by_cases h3 : c = 1024
      · simp [h1, h2, h3, KEY_CTRL, KEY_SHIFT, KEY_ALT, KEYCTRL, KEYSHIFT, KEYALT]
      · simp [h1, h2, h3, KEY_CTRL, KEY_SHIFT, KEY_ALT]

/-- C10, witness: the solitary Ctrl spec 256 is stored under base code 17
with all flags false. -/
theorem c10_solitary_modifier_remap_witness :
    specIndex 256 =
      (if (256 : Nat) = 256 then Chord.mk KEYCTRL false false false
       else if (256 : Nat) = 512 then Chord.mk KEYSHIFT false false false
       else if (256 : Nat) = 1024 then Chord.mk KEYALT false false false
       else Chord.mk 0 ((256 &&& KEY_CTRL) != 0) ((256 &&& KEY_SHIFT) != 0)
         ((256 &&& KEY_ALT) != 0)) ∧
    lookupKeys (register false [] 256 (Binding.fn 0) false).keys (specIndex 256) =
      some (Binding.fn 0) :=
  c10_solitary_modifier_remap false [] 256 (Binding.fn 0) false (by rfl) (by rfl)

end Keyboard
